import Mathlib

set_option maxHeartbeats 1000000

namespace OGX

/-- JSON/BSON-like values: the shapes of data the backend stores and receives
(null, booleans, integers, strings, and string-keyed objects). -/
inductive Value where
  | vnull : Value
  | vbool : Bool → Value
  | vint : Int → Value
  | vstr : String → Value
  | vmap : List (String × Value) → Value

/-- A stored document: an insertion-ordered mapping from field names to values,
mirroring a Python dict / BSON document. -/
abbrev Doc := List (String × Value)

mutual
/-- Structural equality on values, as used by the exact-match query filter. -/
def beqValue : Value → Value → Bool
  | .vnull, .vnull => true
  | .vbool a, .vbool b => a == b
  | .vint a, .vint b => a == b
  | .vstr a, .vstr b => a == b
  | .vmap a, .vmap b => beqPairs a b
  | _, _ => false

/-- Structural equality on field lists, pointwise in order. -/
def beqPairs : List (String × Value) → List (String × Value) → Bool
  | [], [] => true
  | (k, v) :: ps, (l, w) :: qs => k == l && beqValue v w && beqPairs ps qs
  | _, _ => false
end

mutual
/-- Python repr() of a value, as far as the shapes we model go. -/
def pyRepr : Value → String
  | .vnull => "None"
  | .vbool b => if b then "True" else "False"
  | .vint n => toString n
  | .vstr s => "\x27" ++ s ++ "\x27"
  | .vmap ps => "\x7b" ++ pyReprPairs ps ++ "\x7d"

/-- Python repr() of a dict body: comma-separated key: value pairs. -/
def pyReprPairs : List (String × Value) → String
  | [] => ""
  | [(k, v)] => "\x27" ++ k ++ "\x27: " ++ pyRepr v
  | (k, v) :: rest => "\x27" ++ k ++ "\x27: " ++ pyRepr v ++ ", " ++ pyReprPairs rest
end

/-- Python str() of a value: identity on strings, repr-like elsewhere
(in particular str(None) = "None"). -/
def pyStr : Value → String
  | .vstr s => s
  | v => pyRepr v

/-- First-occurrence lookup of a field in a document (Python dict access). -/
def lookupV (k : String) : Doc → Option Value
  | [] => none
  | (k2, v) :: rest => if k2 == k then some v else lookupV k rest

/-- Python dict assignment d[k] = v: replaces the value in place if the key
exists, otherwise appends the key at the end (insertion order). -/
def setKey : Doc → String → Value → Doc
  | [], k, v => [(k, v)]
  | (k2, w) :: rest, k, v =>
      if k2 == k then (k, v) :: rest else (k2, w) :: setKey rest k v

/-- Python dict d.pop(k, None): removes the key from the document. -/
def popKey : Doc → String → Doc
  | [], _ => []
  | (k2, w) :: rest, k =>
      if k2 == k then popKey rest k else (k2, w) :: popKey rest k

/-- Python truthiness of an optional string: None and the empty string are
falsy, every other string is truthy. -/
def pyTruthyStr : Option String → Bool
  | none => false
  | some s => !(s == "")

/-! ## Schema layer (src/schemas.py) -/

/-- Product schema (src/schemas.py, class Product): industrial products,
collection "product". -/
structure Product where
  name : String
  category : String
  short_description : Option String
  specs : Option (List (String × String))
  image_url : Option String
  datasheet_url : Option String
  brand : Option String
  model : Option String
  in_stock : Bool

/-- Inquiry schema (src/schemas.py, class Inquiry): RFQ/contact inquiries,
collection "inquiry". -/
structure Inquiry where
  name : String
  company : String
  email : String
  phone : Option String
  message : String
  product_id : Option String

/-- User schema (src/schemas.py, class User): dormant, collection "user". -/
structure User where
  name : String
  email : String
  address : String
  age : Option Int
  is_active : Bool

/-- Modelled from the spec: the EmailStr validator (the email-validator
library behind pydantic is not part of this repository). "Email fields must
conform to standard email-address syntax": exactly one at-sign, non-empty
local part, non-empty dotted domain not starting or ending with a dot. -/
def isValidEmail (s : String) : Bool :=
  let cs := s.toList
  let l := cs.takeWhile (fun c => !(c == '@'))
  let rest := cs.dropWhile (fun c => !(c == '@'))
  match rest with
  | '@' :: d =>
      !(d.contains '@') && !(l.isEmpty) && !(d.isEmpty) && d.contains '.' &&
        !(d.head? == some '.') && !(d.getLast? == some '.')
  | _ => false

/-- Modelled from the spec: the HttpUrl validator (pydantic library code,
not part of this repository). "URL fields, if present, must be well-formed
absolute URLs": an http or https scheme followed by a non-empty remainder. -/
def isHttpUrl (s : String) : Bool :=
  (s.startsWith "http://" && decide (7 < s.length)) ||
    (s.startsWith "https://" && decide (8 < s.length))

/-- A field-level validation error: the offending field and a message. -/
structure ValErr where
  fieldName : String
  msg : String

/-- Field access on the untyped input object. -/
def getKey (fs : List (String × Value)) (k : String) : Option Value :=
  lookupV k fs

/-- Is the value a JSON string? -/
def isStrV : Value → Bool
  | .vstr _ => true
  | _ => false

/-- Required text field: missing or non-string input is a validation error
naming the field. -/
def reqStr (fs : List (String × Value)) (k : String) : Except ValErr String :=
  match getKey fs k with
  | none => .error ⟨k, "Field required"⟩
  | some (.vstr s) => .ok s
  | some _ => .error ⟨k, "Input should be a valid string"⟩

/-- Optional text field: absent or null yields none; non-string input is a
validation error naming the field. -/
def optStrF (fs : List (String × Value)) (k : String) :
    Except ValErr (Option String) :=
  match getKey fs k with
  | none => .ok none
  | some .vnull => .ok none
  | some (.vstr s) => .ok (some s)
  | some _ => .error ⟨k, "Input should be a valid string"⟩

/-- Optional URL field: absent or null yields none; a string must be a
well-formed URL; anything else is a validation error naming the field. -/
def optUrl (fs : List (String × Value)) (k : String) :
    Except ValErr (Option String) :=
  match getKey fs k with
  | none => .ok none
  | some .vnull => .ok none
  | some (.vstr s) =>
      if isHttpUrl s then .ok (some s) else .error ⟨k, "Input should be a valid URL"⟩
  | some _ => .error ⟨k, "URL input should be a string or URL"⟩

/-- Turn an object whose values are all strings into a string-to-string map. -/
def strPairs : List (String × Value) → Option (List (String × String))
  | [] => some []
  | (k, .vstr s) :: rest => (strPairs rest).map (fun m => (k, s) :: m)
  | _ => none

/-- Optional Dict[str, str] field (the Product specs field). -/
def optSpecs (fs : List (String × Value)) (k : String) :
    Except ValErr (Option (List (String × String))) :=
  match getKey fs k with
  | none => .ok none
  | some .vnull => .ok none
  | some (.vmap ps) =>
      match strPairs ps with
      | some m => .ok (some m)
      | none => .error ⟨k, "Input should be a valid string"⟩
  | some _ => .error ⟨k, "Input should be a valid dictionary"⟩

/-- Boolean field with a declared default used when the field is omitted. -/
def boolField (fs : List (String × Value)) (k : String) (dflt : Bool) :
    Except ValErr Bool :=
  match getKey fs k with
  | none => .ok dflt
  | some (.vbool b) => .ok b
  | some _ => .error ⟨k, "Input should be a valid boolean"⟩

/-- Required EmailStr field: missing, non-string, or syntactically invalid
email input is a validation error naming the field. -/
def reqEmail (fs : List (String × Value)) (k : String) : Except ValErr String :=
  match getKey fs k with
  | none => .error ⟨k, "Field required"⟩
  | some (.vstr s) =>
      if isValidEmail s then .ok s
      else .error ⟨k, "value is not a valid email address"⟩
  | some _ => .error ⟨k, "Input should be a valid string"⟩

/-- Optional bounded integer field (the User age field, ge=0 le=120). -/
def optAge (fs : List (String × Value)) (k : String) :
    Except ValErr (Option Int) :=
  match getKey fs k with
  | none => .ok none
  | some .vnull => .ok none
  | some (.vint n) =>
      if 0 ≤ n ∧ n ≤ 120 then .ok (some n)
      else .error ⟨k, "Input should be in the declared range"⟩
  | some _ => .error ⟨k, "Input should be a valid integer"⟩

/-- Modelled from the spec: pydantic validation of the Product schema as
declared in src/schemas.py (the pydantic library itself is not part of this
repository; lax coercions beyond the declared types are not modelled).
Fields are checked in declaration order and the first failure is reported. -/
def validateProduct (j : Value) : Except ValErr Product :=
  match j with
  | .vmap fs => do
      let n ← reqStr fs "name"
      let c ← reqStr fs "category"
      let sd ← optStrF fs "short_description"
      let sp ← optSpecs fs "specs"
      let iu ← optUrl fs "image_url"
      let du ← optUrl fs "datasheet_url"
      let b ← optStrF fs "brand"
      let m ← optStrF fs "model"
      let stk ← boolField fs "in_stock" true
      pure ⟨n, c, sd, sp, iu, du, b, m, stk⟩
  | _ => .error ⟨"body", "Input should be a valid dictionary"⟩

/-- Modelled from the spec: pydantic validation of the Inquiry schema as
declared in src/schemas.py. -/
def validateInquiry (j : Value) : Except ValErr Inquiry :=
  match j with
  | .vmap fs => do
      let n ← reqStr fs "name"
      let co ← reqStr fs "company"
      let em ← reqEmail fs "email"
      let ph ← optStrF fs "phone"
      let ms ← reqStr fs "message"
      let pid ← optStrF fs "product_id"
      pure ⟨n, co, em, ph, ms, pid⟩
  | _ => .error ⟨"body", "Input should be a valid dictionary"⟩

/-- Modelled from the spec: pydantic validation of the User schema as
declared in src/schemas.py. -/
def validateUser (j : Value) : Except ValErr User :=
  match j with
  | .vmap fs => do
      let n ← reqStr fs "name"
      let em ← reqEmail fs "email"
      let ad ← reqStr fs "address"
      let ag ← optAge fs "age"
      let act ← boolField fs "is_active" true
      pure ⟨n, em, ad, ag, act⟩
  | _ => .error ⟨"body", "Input should be a valid dictionary"⟩

/-- Does the untyped input carry a syntactically valid email in its email
field? (The shape of input the Inquiry and User email validation accepts.) -/
def emailOk (fs : List (String × Value)) : Bool :=
  match getKey fs "email" with
  | some (.vstr s) => isValidEmail s
  | _ => false

/-- Optional string rendered as a BSON value (model_dump keeps None as null). -/
def optStrV : Option String → Value
  | none => .vnull
  | some s => .vstr s

/-- Serialization of a validated Product to a document, in field order. -/
def serializeProduct (p : Product) : Doc :=
  [("name", .vstr p.name),
   ("category", .vstr p.category),
   ("short_description", optStrV p.short_description),
   ("specs", match p.specs with
             | none => .vnull
             | some m => .vmap (m.map (fun kv => (kv.1, .vstr kv.2)))),
   ("image_url", optStrV p.image_url),
   ("datasheet_url", optStrV p.datasheet_url),
   ("brand", optStrV p.brand),
   ("model", optStrV p.model),
   ("in_stock", .vbool p.in_stock)]

/-- Serialization of a validated Inquiry to a document, in field order. -/
def serializeInquiry (i : Inquiry) : Doc :=
  [("name", .vstr i.name),
   ("company", .vstr i.company),
   ("email", .vstr i.email),
   ("phone", optStrV i.phone),
   ("message", .vstr i.message),
   ("product_id", optStrV i.product_id)]

/-! ## Persistence adapter (database.py, not shipped under src/) -/

/-- Modelled from the spec: the connected document database state (database.py
is not under src/). Named collections of documents plus a counter from which
store-assigned identifiers are drawn. -/
structure DBState where
  collections : String → List Doc
  nextId : Nat

/-- The documents of one named collection. -/
def getColl (st : DBState) (kind : String) : List Doc :=
  st.collections kind

/-- Modelled from the spec: the process-wide persistence handle, either a
working connection or a degraded state where every operation fails fast with
a "not available" style error message. -/
inductive Store where
  | up : DBState → Store
  | down : String → Store

/-- Modelled from the spec: a store-assigned opaque identifier, exposed to
clients as a 24-hex-like string. -/
def oidString (n : Nat) : String :=
  let ds := Nat.toDigits 16 n
  String.mk (List.replicate (24 - ds.length) '0' ++ ds)

/-- The state after inserting one serialized record into a collection: the
store appends the document extended with its assigned "_id". -/
def insertState (st : DBState) (kind : String) (rec : Doc) : DBState :=
  ⟨fun n =>
      if n == kind then
        getColl st n ++ [rec ++ [("_id", .vstr (oidString st.nextId))]]
      else getColl st n,
   st.nextId + 1⟩

/-- Modelled from the spec: create_document(kind, record) serializes the
record to a document, inserts it into the collection named after kind, and
returns the newly assigned identifier as a string; on an unavailable
connection it fails with a storage error that propagates to the caller. -/
def create_document (kind : String) (rec : Doc) (store : Store) :
    Except String (String × Store) :=
  match store with
  | .down msg => .error msg
  | .up st => .ok (oidString st.nextId, .up (insertState st kind rec))

/-- Does a document match an exact-match filter (every filter key present
with an equal value)? -/
def matchesFilter (flt : List (String × Value)) (d : Doc) : Bool :=
  flt.all (fun kv =>
    match lookupV kv.1 d with
    | some w => beqValue kv.2 w
    | none => false)

/-- Modelled from the spec: get_documents(kind, filter, limit) returns at
most limit documents of the collection named after kind matching the
exact-match filter (an empty filter matches all documents), in the store's
natural order; on an unavailable connection it fails with a storage error. -/
def get_documents (kind : String) (flt : List (String × Value)) (lim : Nat)
    (store : Store) : Except String (List Doc) :=
  match store with
  | .down msg => .error msg
  | .up st => .ok (((getColl st kind).filter (matchesFilter flt)).take lim)

/-- A collection state has a document matching the given filter in the
"product" collection. -/
def HasMatch (st : DBState) (flt : List (String × Value)) : Prop :=
  ∃ d, d ∈ getColl st "product" ∧ matchesFilter flt d = true

/-! ## API layer (src/main.py) -/

/-- An HTTP response of this API: a JSON-object success body, a JSON-array
success body, a framework-level validation rejection, or an HTTPException. -/
inductive Resp where
  | ok : Nat → List (String × Value) → Resp
  | okList : Nat → List Doc → Resp
  | valErr : ValErr → Resp
  | httpErr : Nat → String → Resp

/-- POST /api/products (src/main.py, create_product): validate the body
against the Product schema, persist it, return the new id; any persistence
failure becomes HTTP 500 carrying the underlying message. -/
def create_product (j : Value) (store : Store) : Resp × Store :=
  match validateProduct j with
  | .error e => (.valErr e, store)
  | .ok p =>
      match create_document "product" (serializeProduct p) store with
      | .error m => (.httpErr 500 m, store)
      | .ok (oid, store2) => (.ok 200 [("id", .vstr oid)], store2)

/-- Python d.get("_id") then str(): render the internal identifier,
"None" when the field is absent. -/
def idAsString (d : Doc) : String :=
  pyStr ((lookupV "_id" d).getD .vnull)

/-- Response shaping of one stored document (src/main.py lines 71-73):
d["id"] = str(d.get("_id")); d.pop("_id", None). -/
def shapeDoc (d : Doc) : Doc :=
  popKey (setKey d "id" (.vstr (idAsString d))) "_id"

/-- GET /api/products (src/main.py, list_products): an exact-match category
filter is applied only when the parameter is truthy (absent or empty string
means no filter), the collection is queried with the given limit, and each
returned document is shaped; persistence failure becomes HTTP 500. -/
def list_products (category : Option String) (lim : Nat) (store : Store) :
    Resp :=
  let filter_q : List (String × Value) :=
    match category with
    | some c => if c == "" then [] else [("category", Value.vstr c)]
    | none => []
  match get_documents "product" filter_q lim store with
  | .error m => .httpErr 500 m
  | .ok docs => .okList 200 (docs.map shapeDoc)

/-- The list request as it arrives over HTTP: the limit query parameter
defaults to 24 when not supplied (src/main.py line 66). -/
def list_products_request (category : Option String) (lim : Option Nat)
    (store : Store) : Resp :=
  list_products category (lim.getD 24) store

/-- The duplicate-seed check key (src/main.py line 155): name and model. -/
def dupFilter (p : Product) : List (String × Value) :=
  [("name", .vstr p.name), ("model", optStrV p.model)]

/-- The six built-in sample products (src/main.py lines 83-150). -/
def sampleProducts : List Product :=
  [⟨"Cryogenic Solenoid Valve", "Cryogenic Valves",
    some "Stainless steel cryogenic solenoid valve for LNG service",
    some [("size", "1/2\""), ("rating", "Class 600"), ("temp", "-196°C")],
    none, some "https://example.com/datasheets/cryogenic-solenoid.pdf",
    some "CryoFlow", some "CSV-600", true⟩,
   ⟨"API Process Pump", "Process Pumps",
    some "Horizontal end-suction process pump per API 610",
    some [("capacity", "120 m3/h"), ("head", "80 m"), ("material", "A216 WCB")],
    none, some "https://example.com/datasheets/api610-pump.pdf",
    some "ProPump", some "PP-610", true⟩,
   ⟨"Mud Logging Sensor", "Drilling Sensors",
    some "Real-time drilling mud density & flow sensor",
    some [("range", "0-3 SG"), ("protocol", "Modbus RTU")],
    none, some "https://example.com/datasheets/mud-sensor.pdf",
    some "DrillSense", some "MS-300", false⟩,
   ⟨"Cryogenic Globe Valve", "Cryogenic Valves",
    some "Extended bonnet globe valve for LNG cold service",
    some [("size", "2\""), ("rating", "Class 300"), ("material", "CF8M")],
    none, some "https://example.com/datasheets/cryogenic-globe.pdf",
    some "ArcticValve", some "CGV-300", true⟩,
   ⟨"Multistage Boiler Feed Pump", "Process Pumps",
    some "High-pressure boiler feed pump for utilities",
    some [("stages", "6"), ("pressure", "35 bar")],
    none, some "https://example.com/datasheets/boiler-feed.pdf",
    some "ThermoFlow", some "BFP-6S", true⟩,
   ⟨"Downhole Pressure Sensor", "Drilling Sensors",
    some "High-temp downhole pressure sensor for MWD",
    some [("pressure", "20k psi"), ("temp", "175°C")],
    none, some "https://example.com/datasheets/downhole-pressure.pdf",
    some "GeoProbe", some "DPS-20K", false⟩]

/-- The seeding loop (src/main.py lines 152-158): for each sample, query for
an existing document with the same name and model (limit 1) and insert only
when none exists, counting actual inserts; a storage error aborts the loop
and propagates. -/
def seedLoop : List Product → Store → Nat → Except String (Store × Nat)
  | [], store, n => .ok (store, n)
  | p :: ps, store, n =>
      match get_documents "product" (dupFilter p) 1 store with
      | .error e => .error e
      | .ok dups =>
          if dups.isEmpty then
            match create_document "product" (serializeProduct p) store with
            | .error e => .error e
            | .ok (_, store2) => seedLoop ps store2 (n + 1)
          else seedLoop ps store n

/-- POST /api/products/seed (src/main.py, seed_products): run the seeding
loop over the fixed sample list; report the number actually inserted, or
HTTP 500 on a storage error. -/
def seed_products (store : Store) : Resp × Store :=
  match seedLoop sampleProducts store 0 with
  | .error e => (.httpErr 500 e, store)
  | .ok (store2, n) =>
      (.ok 200 [("status", .vstr "ok"), ("inserted", .vint n)], store2)

/-- POST /api/inquiries (src/main.py, create_inquiry): validate against the
Inquiry schema, persist, return the id plus the fixed "received" status;
persistence failure becomes HTTP 500. -/
def create_inquiry (j : Value) (store : Store) : Resp × Store :=
  match validateInquiry j with
  | .error e => (.valErr e, store)
  | .ok i =>
      match create_document "inquiry" (serializeInquiry i) store with
      | .error m => (.httpErr 500 m, store)
      | .ok (oid, store2) =>
          (.ok 200 [("id", .vstr oid), ("status", .vstr "received")], store2)

/-- The connection handle observed by the diagnostic endpoint: the db global
is either None or a handle whose collection enumeration yields names or
raises (the handle comes from database.py, modelled from the spec). -/
inductive Conn where
  | absent : Conn
  | avail : Except String (List String) → Conn

/-- The body of the GET /test response (src/main.py lines 26-33). -/
structure TestResp where
  backend : String
  database : String
  database_url : Option String
  database_name : Option String
  connection_status : String
  collections : List String

/-- GET /test (src/main.py, test_database): build the diagnostic report for
the given connection state and DATABASE_URL / DATABASE_NAME environment
values; the function is total and always carries HTTP status 200. -/
def test_database (conn : Conn) (envUrl envName : Option String) :
    Nat × TestResp :=
  match conn with
  | .absent =>
      (200, ⟨"✅ Running", "⚠️  Available but not initialized", none, none,
             "Not Connected", []⟩)
  | .avail r =>
      let urlS := if pyTruthyStr envUrl then "✅ Set" else "❌ Not Set"
      let nameS := if pyTruthyStr envName then "✅ Set" else "❌ Not Set"
      match r with
      | .ok names =>
          (200, ⟨"✅ Running", "✅ Connected & Working", some urlS, some nameS,
                 "Connected", names.take 10⟩)
      | .error e =>
          (200, ⟨"✅ Running", "⚠️  Connected but Error: " ++ e.take 50,
                 some urlS, some nameS, "Connected", []⟩)

/-! ## Dictionary and shaping lemmas -/

theorem lookupV_setKey_self (d : Doc) (k : String) (v : Value) :
    lookupV k (setKey d k v) = some v := by
  induction d with
  | nil => simp [setKey, lookupV]
  | cons kv rest ih =>
      obtain ⟨k2, w⟩ := kv
      cases h : k2 == k with
      | true => simp [setKey, h, lookupV]
      | false => simp [setKey, h, lookupV, ih]

theorem lookupV_setKey_ne (d : Doc) (k : String) (v : Value) (q : String)
    (h : (q == k) = false) : lookupV q (setKey d k v) = lookupV q d := by
  have hqk : q ≠ k := by
    rw [beq_eq_false_iff_ne] at h
    exact h
  have hkq : (k == q) = false := beq_eq_false_iff_ne.mpr (Ne.symm hqk)
  induction d with
  | nil => simp [setKey, lookupV, hkq]
  | cons kv rest ih =>
      obtain ⟨k2, w⟩ := kv
      cases h2 : k2 == k with
      | true =>
          have hk2 : k2 = k := by
            rw [beq_iff_eq] at h2
            exact h2
          subst hk2
          simp [setKey, lookupV, hkq]
      | false => simp [setKey, h2, lookupV, ih]

theorem lookupV_popKey_self (d : Doc) (k : String) :
    lookupV k (popKey d k) = none := by
  induction d with
  | nil => simp [popKey, lookupV]
  | cons kv rest ih =>
      obtain ⟨k2, w⟩ := kv
      cases h : k2 == k with
      | true => simp [popKey, h, ih]
      | false => simp [popKey, h, lookupV, ih]

theorem lookupV_popKey_ne (d : Doc) (k : String) (q : String)
    (h : (q == k) = false) : lookupV q (popKey d k) = lookupV q d := by
  have hqk : q ≠ k := by
    rw [beq_eq_false_iff_ne] at h
    exact h
  have hkq : (k == q) = false := beq_eq_false_iff_ne.mpr (Ne.symm hqk)
  induction d with
  | nil => simp [popKey, lookupV]
  | cons kv rest ih =>
      obtain ⟨k2, w⟩ := kv
      cases h2 : k2 == k with
      | true =>
          have hk2 : k2 = k := by
            rw [beq_iff_eq] at h2
            exact h2
          subst hk2
          simp [popKey, lookupV, hkq, ih]
      | false => simp [popKey, h2, lookupV, ih]

theorem shapeDoc_id (d : Doc) :
    lookupV "id" (shapeDoc d) = some (.vstr (idAsString d)) := by
  unfold shapeDoc
  rw [lookupV_popKey_ne _ _ _ (by rfl), lookupV_setKey_self]

theorem shapeDoc_internal_removed (d : Doc) :
    lookupV "_id" (shapeDoc d) = none :=
  lookupV_popKey_self _ _

theorem shapeDoc_other (d : Doc) (k : String)
    (h1 : (k == "id") = false) (h2 : (k == "_id") = false) :
    lookupV k (shapeDoc d) = lookupV k d := by
  unfold shapeDoc
  rw [lookupV_popKey_ne _ _ _ h2, lookupV_setKey_ne _ _ _ _ h1]

/-! ## Seeding lemmas -/

theorem beqValue_vstr_self (s : String) : beqValue (.vstr s) (.vstr s) = true := by
  simp [beqValue]

theorem beqValue_optStrV_self (o : Option String) :
    beqValue (optStrV o) (optStrV o) = true := by
  cases o <;> simp [optStrV, beqValue]

theorem matches_dup_serialize (p : Product) (oid : String) :
    matchesFilter (dupFilter p) (serializeProduct p ++ [("_id", .vstr oid)]) = true := by
  have h1 : lookupV "name" (serializeProduct p ++ [("_id", .vstr oid)]) =
      some (.vstr p.name) := rfl
  have h2 : lookupV "model" (serializeProduct p ++ [("_id", .vstr oid)]) =
      some (optStrV p.model) := rfl
  simp [matchesFilter, dupFilter, h1, h2, beqValue_vstr_self, beqValue_optStrV_self]

theorem getColl_insert (st : DBState) (kind : String) (rec : Doc) (n : String) :
    getColl (insertState st kind rec) n =
      if n == kind then
        getColl st n ++ [rec ++ [("_id", .vstr (oidString st.nextId))]]
      else getColl st n := rfl

theorem getColl_insert_self (st : DBState) (kind : String) (rec : Doc) :
    getColl (insertState st kind rec) kind =
      getColl st kind ++ [rec ++ [("_id", .vstr (oidString st.nextId))]] := by
  rw [getColl_insert, if_pos (beq_self_eq_true kind)]

theorem HasMatch_insert (st : DBState) (kind : String) (rec : Doc)
    (flt : List (String × Value)) (h : HasMatch st flt) :
    HasMatch (insertState st kind rec) flt := by
  obtain ⟨d, hd, hm⟩ := h
  refine ⟨d, ?_, hm⟩
  rw [getColl_insert]
  cases hk : "product" == kind with
  | true => rw [if_pos rfl]; exact List.mem_append_left _ hd
  | false => rw [if_neg Bool.false_ne_true]; exact hd

theorem HasMatch_of_filter_ne_nil (st : DBState) (flt : List (String × Value))
    (h : (getColl st "product").filter (matchesFilter flt) ≠ []) :
    HasMatch st flt := by
  obtain ⟨d, hd⟩ := List.exists_mem_of_ne_nil _ h
  rw [List.mem_filter] at hd
  exact ⟨d, hd.1, hd.2⟩

theorem take_one_isEmpty (l : List Doc) : (l.take 1).isEmpty = l.isEmpty := by
  cases l <;> rfl

/-- One unfolding step of the seeding loop on a working connection. -/
theorem seedLoop_cons_up (p : Product) (ps : List Product) (st : DBState) (n : Nat) :
    seedLoop (p :: ps) (.up st) n =
      if (((getColl st "product").filter (matchesFilter (dupFilter p))).take 1).isEmpty then
        seedLoop ps (.up (insertState st "product" (serializeProduct p))) (n + 1)
      else seedLoop ps (.up st) n := rfl

/-- The seeding loop on a working connection: it succeeds, inserts at most
one document per sample, only grows the product collection, and afterwards
every processed sample has a name+model match in the store. -/
theorem seedLoop_up (ps : List Product) (st : DBState) (n : Nat) :
    ∃ st2 k, seedLoop ps (.up st) n = .ok (.up st2, n + k) ∧
      k ≤ ps.length ∧
      (getColl st2 "product").length = (getColl st "product").length + k ∧
      (∀ flt, HasMatch st flt → HasMatch st2 flt) ∧
      (∀ p ∈ ps, HasMatch st2 (dupFilter p)) := by
  induction ps generalizing st n with
  | nil =>
      exact ⟨st, 0, rfl, by simp, by simp, fun _ h => h, by simp⟩
  | cons p ps ih =>
      cases hemp : (((getColl st "product").filter (matchesFilter (dupFilter p))).take 1).isEmpty with
      | true =>
          obtain ⟨st2, k, hrun, hk, hlen, hpres, hest⟩ :=
            ih (insertState st "product" (serializeProduct p)) (n + 1)
          refine ⟨st2, k + 1, ?_, ?_, ?_, ?_, ?_⟩
          · rw [seedLoop_cons_up, if_pos hemp, hrun]
            have : n + 1 + k = n + (k + 1) := by omega
            rw [this]
          · simp only [List.length_cons]
            omega
          · rw [hlen, getColl_insert_self, List.length_append]
            simp only [List.length_singleton]
            omega
          · exact fun flt h => hpres flt (HasMatch_insert _ _ _ _ h)
          · intro q hq
            rcases List.mem_cons.mp hq with hq | hq
            · subst hq
              refine hpres _ ?_
              refine ⟨serializeProduct q ++ [("_id", .vstr (oidString st.nextId))], ?_,
                matches_dup_serialize q _⟩
              rw [getColl_insert_self]
              exact List.mem_append_right _ (List.mem_singleton.mpr rfl)
            · exact hest q hq
      | false =>
          obtain ⟨st2, k, hrun, hk, hlen, hpres, hest⟩ := ih st n
          refine ⟨st2, k, ?_, ?_, hlen, hpres, ?_⟩
          · rw [seedLoop_cons_up, if_neg (by rw [hemp]; exact Bool.false_ne_true), hrun]
          · simp only [List.length_cons]
            omega
          · intro q hq
            rcases List.mem_cons.mp hq with hq | hq
            · subst hq
              refine hpres _ (HasMatch_of_filter_ne_nil st _ ?_)
              intro hnil
              rw [take_one_isEmpty] at hemp
              rw [hnil] at hemp
              simp at hemp
            · exact hest q hq

/-- The seeding loop is a no-op when every sample already has a name+model
match in the store. -/
theorem seedLoop_stable (ps : List Product) (st : DBState) (n : Nat)
    (h : ∀ p ∈ ps, HasMatch st (dupFilter p)) :
    seedLoop ps (.up st) n = .ok (.up st, n) := by
  induction ps generalizing n with
  | nil => rfl
  | cons p ps ih =>
      have hp := h p (List.mem_cons_self p ps)
      have hne : (getColl st "product").filter (matchesFilter (dupFilter p)) ≠ [] := by
        obtain ⟨d, hd, hm⟩ := hp
        exact List.ne_nil_of_mem (List.mem_filter.mpr ⟨hd, hm⟩)
      have hemp : (((getColl st "product").filter (matchesFilter (dupFilter p))).take 1).isEmpty = false := by
        rw [take_one_isEmpty]
        cases hl : (getColl st "product").filter (matchesFilter (dupFilter p)) with
        | nil => exact absurd hl hne
        | cons a l => rfl
      rw [seedLoop_cons_up, if_neg (by rw [hemp]; exact Bool.false_ne_true)]
      apply ih
      intro q hq
      exact h q (List.mem_cons_of_mem p hq)

/-! ## Validation inversion lemmas -/

theorem validateProduct_in_stock (fs : List (String × Value)) (p : Product)
    (h : validateProduct (.vmap fs) = .ok p) :
    boolField fs "in_stock" true = .ok p.in_stock := by
  unfold validateProduct at h
  simp only [bind, Except.bind, pure, Except.pure] at h
  cases h1 : reqStr fs "name" <;> simp only [h1] at h
  case error => cases h
  case ok n =>
  cases h2 : reqStr fs "category" <;> simp only [h2] at h
  case error => cases h
  case ok c =>
  cases h3 : optStrF fs "short_description" <;> simp only [h3] at h
  case error => cases h
  case ok sd =>
  cases h4 : optSpecs fs "specs" <;> simp only [h4] at h
  case error => cases h
  case ok sp =>
  cases h5 : optUrl fs "image_url" <;> simp only [h5] at h
  case error => cases h
  case ok iu =>
  cases h6 : optUrl fs "datasheet_url" <;> simp only [h6] at h
  case error => cases h
  case ok du =>
  cases h7 : optStrF fs "brand" <;> simp only [h7] at h
  case error => cases h
  case ok b =>
  cases h8 : optStrF fs "model" <;> simp only [h8] at h
  case error => cases h
  case ok m =>
  cases h9 : boolField fs "in_stock" true <;> simp only [h9] at h
  case error => cases h
  case ok stk =>
  cases h
  rfl

theorem validateUser_is_active (fs : List (String × Value)) (u : User)
    (h : validateUser (.vmap fs) = .ok u) :
    boolField fs "is_active" true = .ok u.is_active := by
  unfold validateUser at h
  simp only [bind, Except.bind, pure, Except.pure] at h
  cases h1 : reqStr fs "name" <;> simp only [h1] at h
  case error => cases h
  case ok n =>
  cases h2 : reqEmail fs "email" <;> simp only [h2] at h
  case error => cases h
  case ok em =>
  cases h3 : reqStr fs "address" <;> simp only [h3] at h
  case error => cases h
  case ok ad =>
  cases h4 : optAge fs "age" <;> simp only [h4] at h
  case error => cases h
  case ok ag =>
  cases h5 : boolField fs "is_active" true <;> simp only [h5] at h
  case error => cases h
  case ok act =>
  cases h
  rfl

theorem validateInquiry_email (fs : List (String × Value)) (i : Inquiry)
    (h : validateInquiry (.vmap fs) = .ok i) :
    reqEmail fs "email" = .ok i.email := by
  unfold validateInquiry at h
  simp only [bind, Except.bind, pure, Except.pure] at h
  cases h1 : reqStr fs "name" <;> simp only [h1] at h
  case error => cases h
  case ok n =>
  cases h2 : reqStr fs "company" <;> simp only [h2] at h
  case error => cases h
  case ok co =>
  cases h3 : reqEmail fs "email" <;> simp only [h3] at h
  case error => cases h
  case ok em =>
  cases h4 : optStrF fs "phone" <;> simp only [h4] at h
  case error => cases h
  case ok ph =>
  cases h5 : reqStr fs "message" <;> simp only [h5] at h
  case error => cases h
  case ok ms =>
  cases h6 : optStrF fs "product_id" <;> simp only [h6] at h
  case error => cases h
  case ok pid =>
  cases h
  rfl

theorem reqEmail_ok (fs : List (String × Value)) (k : String) (s : String)
    (h : reqEmail fs k = .ok s) :
    getKey fs k = some (.vstr s) ∧ isValidEmail s = true := by
  unfold reqEmail at h
  cases hg : getKey fs k
  case none =>
    simp only [hg] at h
    cases h
  case some v =>
  cases v <;> simp only [hg] at h <;> try cases h
  case vstr s2 =>
  by_cases hv : isValidEmail s2 = true
  · rw [if_pos hv] at h
    cases h
    exact ⟨rfl, hv⟩
  · rw [if_neg hv] at h
    cases h

/-! ## Listing lemmas -/

theorem beqValue_vstr_eq (c : String) (w : Value)
    (h : beqValue (.vstr c) w = true) : w = .vstr c := by
  cases w with
  | vstr s =>
      simp only [beqValue, beq_iff_eq] at h
      rw [h]
  | vnull => simp [beqValue] at h
  | vbool b => simp [beqValue] at h
  | vint n => simp [beqValue] at h
  | vmap m => simp [beqValue] at h

theorem matchesFilter_single (k : String) (v : Value) (d : Doc)
    (h : matchesFilter [(k, v)] d = true) :
    ∃ w, lookupV k d = some w ∧ beqValue v w = true := by
  simp only [matchesFilter, List.all_cons, List.all_nil, Bool.and_true] at h
  cases hl : lookupV k d
  case none =>
    rw [hl] at h
    cases h
  case some w =>
    rw [hl] at h
    exact ⟨w, rfl, h⟩

theorem list_products_up_filtered (c : String) (hc : (c == "") = false)
    (lim : Nat) (st : DBState) :
    list_products (some c) lim (.up st) =
      .okList 200 ((((getColl st "product").filter
        (matchesFilter [("category", .vstr c)])).take lim).map shapeDoc) := by
  simp only [list_products, get_documents]
  rw [if_neg (by rw [hc]; exact Bool.false_ne_true)]

theorem list_products_up_all (lim : Nat) (st : DBState) :
    list_products none lim (.up st) =
      .okList 200 (((getColl st "product").take lim).map shapeDoc) := by
  simp only [list_products, get_documents]
  have h0 : (getColl st "product").filter (matchesFilter []) = getColl st "product" := by
    simp [matchesFilter]
  rw [h0]

/-! ## Claim theorems -/

/-- Claim C1: the seed operation is idempotent over the fixed six-sample
set. On a working connection it inserts a document only when no existing
product document has the same name and model, reports the count actually
inserted (at most 6, each insert growing the collection by one document),
and a second consecutive call leaves the store unchanged and reports
inserted = 0. -/
theorem claim_C1_seed_idempotent (st : DBState) :
    ∃ (st1 : DBState) (n1 : Nat),
      seed_products (.up st) =
        (.ok 200 [("status", .vstr "ok"), ("inserted", .vint n1)], .up st1) ∧
      n1 ≤ 6 ∧
      (getColl st1 "product").length = (getColl st "product").length + n1 ∧
      seed_products (.up st1) =
        (.ok 200 [("status", .vstr "ok"), ("inserted", .vint 0)], .up st1) := by
  obtain ⟨st1, k, hrun, hk, hlen, hpres, hest⟩ := seedLoop_up sampleProducts st 0
  rw [Nat.zero_add] at hrun
  refine ⟨st1, k, ?_, ?_, hlen, ?_⟩
  · simp only [seed_products, hrun]
  · have h6 : sampleProducts.length = 6 := rfl
    omega
  · have hstable := seedLoop_stable sampleProducts st1 0 hest
    simp only [seed_products, hstable, Nat.cast_zero]

/-- Claim C2 (amended): for every non-empty category filter value, listing
returns only documents whose category field exactly equals the value; when
the filter is omitted, documents across all categories are returned up to
the limit; the empty-string filter value behaves exactly like an omitted
filter. -/
theorem claim_C2_category_filter (c : String) (hc : c ≠ "") (lim : Nat)
    (st : DBState) :
    (∀ docs, list_products (some c) lim (.up st) = .okList 200 docs →
        ∀ d ∈ docs, lookupV "category" d = some (.vstr c)) ∧
    list_products none lim (.up st) =
      .okList 200 (((getColl st "product").take lim).map shapeDoc) ∧
    list_products (some "") lim (.up st) = list_products none lim (.up st) := by
  have hcb : (c == "") = false := beq_eq_false_iff_ne.mpr hc
  refine ⟨?_, list_products_up_all lim st, rfl⟩
  intro docs hdocs d hd
  rw [list_products_up_filtered c hcb lim st] at hdocs
  cases hdocs
  obtain ⟨d0, hd0, hde⟩ := List.mem_map.mp hd
  subst hde
  have hd0f : d0 ∈ (getColl st "product").filter
      (matchesFilter [("category", .vstr c)]) :=
    List.take_subset _ _ hd0
  have hmatch := (List.mem_filter.mp hd0f).2
  obtain ⟨w, hw, hbeq⟩ := matchesFilter_single _ _ _ hmatch
  have hwc := beqValue_vstr_eq c w hbeq
  subst hwc
  rw [shapeDoc_other d0 "category" rfl rfl, hw]

/-- Claim C2 witness: at the concrete filter value "Valves" the returned
document indeed carries category "Valves". -/
theorem claim_C2_category_filter_witness :
    lookupV "category"
      (shapeDoc [("name", .vstr "Test Valve"), ("category", .vstr "Valves"),
        ("_id", .vstr "aabbcc")]) = some (.vstr "Valves") :=
  (claim_C2_category_filter "Valves" (by decide) 24
      ⟨fun n => if n == "product"
        then [[("name", .vstr "Test Valve"), ("category", .vstr "Valves"),
          ("_id", .vstr "aabbcc")]]
        else [], 0⟩).1
    _ rfl _ (List.mem_singleton.mpr rfl)

/-- Claim C2 counterexample: supplying the empty string as the category
filter value returns a document whose category is "Valves", not the empty
string, because Python truthiness drops the falsy filter. -/
theorem claim_C2_category_filter_counterexample :
    list_products (some "") 24
      (.up ⟨fun n => if n == "product"
        then [[("name", .vstr "Test Valve"), ("category", .vstr "Valves"),
          ("_id", .vstr "aabbcc")]]
        else [], 0⟩) =
      .okList 200 [[("name", .vstr "Test Valve"), ("category", .vstr "Valves"),
        ("id", .vstr "aabbcc")]] ∧
    Value.vstr "Valves" ≠ Value.vstr "" := by
  refine ⟨rfl, ?_⟩
  intro h
  injection h with h2
  exact absurd h2 (by decide)

/-- Claim C3 (amended): product validation requires name and category to be
present and of text type; a missing or non-string name or category fails
validation with an error naming the offending field, and any validation
failure is surfaced before any persistence attempt (the store is untouched).
The empty string, however, is accepted as a value for these fields. -/
theorem claim_C3_required_fields (fs : List (String × Value)) (s : String)
    (j : Value) (e : ValErr) (store : Store) :
    (getKey fs "name" = none →
        validateProduct (.vmap fs) = .error ⟨"name", "Field required"⟩) ∧
    (∀ w, getKey fs "name" = some w → isStrV w = false →
        validateProduct (.vmap fs) =
          .error ⟨"name", "Input should be a valid string"⟩) ∧
    (getKey fs "name" = some (.vstr s) → getKey fs "category" = none →
        validateProduct (.vmap fs) = .error ⟨"category", "Field required"⟩) ∧
    (∀ w, getKey fs "name" = some (.vstr s) → getKey fs "category" = some w →
        isStrV w = false →
        validateProduct (.vmap fs) =
          .error ⟨"category", "Input should be a valid string"⟩) ∧
    (validateProduct j = .error e → create_product j store = (.valErr e, store)) := by
  refine ⟨?_, ?_, ?_, ?_, ?_⟩
  · intro h
    simp [validateProduct, reqStr, h, bind, Except.bind]
  · intro w h hw
    cases w <;> simp [isStrV] at hw <;>
      simp [validateProduct, reqStr, h, bind, Except.bind]
  · intro h1 h2
    simp [validateProduct, reqStr, h1, h2, bind, Except.bind]
  · intro w h1 h2 hw
    cases w <;> simp [isStrV] at hw <;>
      simp [validateProduct, reqStr, h1, h2, bind, Except.bind]
  · intro h
    simp [create_product, h]

/-- Claim C3 witness: concrete inputs exercising each rejection branch and
the no-persistence guarantee. -/
theorem claim_C3_required_fields_witness :
    validateProduct (.vmap [("category", .vstr "Pumps")]) =
      .error ⟨"name", "Field required"⟩ ∧
    validateProduct (.vmap [("name", .vint 3), ("category", .vstr "Pumps")]) =
      .error ⟨"name", "Input should be a valid string"⟩ ∧
    validateProduct (.vmap [("name", .vstr "V")]) =
      .error ⟨"category", "Field required"⟩ ∧
    validateProduct (.vmap [("name", .vstr "V"), ("category", .vbool true)]) =
      .error ⟨"category", "Input should be a valid string"⟩ ∧
    create_product (.vmap []) (.down "x") =
      (.valErr ⟨"name", "Field required"⟩, .down "x") :=
  ⟨(claim_C3_required_fields [("category", .vstr "Pumps")] "" (.vmap [])
      ⟨"name", "Field required"⟩ (.down "x")).1 rfl,
   (claim_C3_required_fields [("name", .vint 3), ("category", .vstr "Pumps")] ""
      (.vmap []) ⟨"name", "Field required"⟩ (.down "x")).2.1 _ rfl rfl,
   (claim_C3_required_fields [("name", .vstr "V")] "V" (.vmap [])
      ⟨"name", "Field required"⟩ (.down "x")).2.2.1 rfl rfl,
   (claim_C3_required_fields [("name", .vstr "V"), ("category", .vbool true)] "V"
      (.vmap []) ⟨"name", "Field required"⟩ (.down "x")).2.2.2.1 _ rfl rfl rfl,
   (claim_C3_required_fields [] "" (.vmap []) ⟨"name", "Field required"⟩
      (.down "x")).2.2.2.2 rfl⟩

/-- Claim C3 counterexample: a product whose name is the empty string passes
validation and is persisted, so the empty string is not rejected. -/
theorem claim_C3_required_fields_counterexample :
    validateProduct (.vmap [("name", .vstr ""), ("category", .vstr "Compressors")]) =
      .ok ⟨"", "Compressors", none, none, none, none, none, none, true⟩ ∧
    (create_product (.vmap [("name", .vstr ""), ("category", .vstr "Compressors")])
        (.up ⟨fun _ => [], 0⟩)).1 =
      .ok 200 [("id", .vstr (oidString 0))] :=
  ⟨rfl, rfl⟩

/-- Claim C4: the diagnostic endpoint is a total function that always
carries HTTP status 200, reports the tiered descriptive status string for
each connection state, and in particular reports connection_status
"Not Connected" when the store handle is absent. -/
theorem claim_C4_diagnostic_total (conn : Conn) (eu en : Option String)
    (ns : List String) (e : String) :
    (test_database conn eu en).1 = 200 ∧
    (test_database .absent eu en).2.connection_status = "Not Connected" ∧
    (test_database .absent eu en).2.database = "⚠️  Available but not initialized" ∧
    (test_database (.avail (.ok ns)) eu en).2.database = "✅ Connected & Working" ∧
    (test_database (.avail (.ok ns)) eu en).2.connection_status = "Connected" ∧
    (test_database (.avail (.error e)) eu en).2.database =
      "⚠️  Connected but Error: " ++ e.take 50 ∧
    (test_database (.avail (.error e)) eu en).2.connection_status = "Connected" := by
  refine ⟨?_, rfl, rfl, rfl, rfl, rfl, rfl⟩
  cases conn with
  | absent => rfl
  | avail r => cases r <;> rfl

/-- Claim C5: an inquiry whose email field does not hold a syntactically
valid email address fails validation, and the request is rejected before
any persistence attempt: the store is returned unchanged. -/
theorem claim_C5_invalid_email (fs : List (String × Value)) (store : Store)
    (h : emailOk fs = false) :
    ∃ e, validateInquiry (.vmap fs) = .error e ∧
      create_inquiry (.vmap fs) store = (.valErr e, store) := by
  cases hv : validateInquiry (.vmap fs) with
  | error e =>
      refine ⟨e, ?_, ?_⟩
      · rfl
      · simp [create_inquiry, hv]
  | ok i =>
      exfalso
      have hre := validateInquiry_email fs i hv
      obtain ⟨hg, hval⟩ := reqEmail_ok fs "email" i.email hre
      unfold emailOk at h
      simp only [hg] at h
      rw [hval] at h
      exact Bool.noConfusion h

/-- Claim C5 witness: the concrete email "not-an-email" is rejected and the
store is left unchanged. -/
theorem claim_C5_invalid_email_witness :
    ∃ e, validateInquiry (.vmap [("name", .vstr "Jo Doe"), ("company", .vstr "Acme"),
        ("email", .vstr "not-an-email"), ("message", .vstr "Need a quote")]) =
        .error e ∧
      create_inquiry (.vmap [("name", .vstr "Jo Doe"), ("company", .vstr "Acme"),
        ("email", .vstr "not-an-email"), ("message", .vstr "Need a quote")])
        (.up ⟨fun _ => [], 0⟩) = (.valErr e, .up ⟨fun _ => [], 0⟩) :=
  claim_C5_invalid_email
    [("name", .vstr "Jo Doe"), ("company", .vstr "Acme"),
     ("email", .vstr "not-an-email"), ("message", .vstr "Need a quote")]
    (.up ⟨fun _ => [], 0⟩) rfl

/-- Claim C6: every product object returned by listing is a shaped stored
document: the internal "_id" field is removed, a public "id" field holds
the identifier rendered as a string, every other field is unchanged, and
the limit defaults to 24 when the query parameter is not supplied. -/
theorem claim_C6_shaping (st : DBState) (c : Option String) (lim : Nat)
    (d : Doc) :
    list_products_request c none (.up st) = list_products c 24 (.up st) ∧
    lookupV "id" (shapeDoc d) = some (.vstr (idAsString d)) ∧
    lookupV "_id" (shapeDoc d) = none ∧
    (∀ k : String, k ≠ "id" → k ≠ "_id" →
        lookupV k (shapeDoc d) = lookupV k d) ∧
    (∀ docs, list_products c lim (.up st) = .okList 200 docs →
        ∃ ds : List Doc, docs = ds.map shapeDoc ∧
          ∀ d2 ∈ ds, d2 ∈ getColl st "product") := by
  refine ⟨rfl, shapeDoc_id d, shapeDoc_internal_removed d, ?_, ?_⟩
  · intro k h1 h2
    exact shapeDoc_other d k (beq_eq_false_iff_ne.mpr h1) (beq_eq_false_iff_ne.mpr h2)
  · intro docs hdocs
    cases c with
    | none =>
        rw [list_products_up_all lim st] at hdocs
        cases hdocs
        exact ⟨(getColl st "product").take lim, rfl,
          fun d2 hd2 => List.take_subset _ _ hd2⟩
    | some cv =>
        cases hcb : cv == "" with
        | true =>
            have hcv : cv = "" := by
              rw [beq_iff_eq] at hcb
              exact hcb
            subst hcv
            have hsame : list_products (some "") lim (.up st) =
                list_products none lim (.up st) := rfl
            rw [hsame, list_products_up_all lim st] at hdocs
            cases hdocs
            exact ⟨(getColl st "product").take lim, rfl,
              fun d2 hd2 => List.take_subset _ _ hd2⟩
        | false =>
            rw [list_products_up_filtered cv hcb lim st] at hdocs
            cases hdocs
            refine ⟨_, rfl, fun d2 hd2 => ?_⟩
            exact List.mem_of_mem_filter (List.take_subset _ _ hd2)

/-- Claim C6 witness: shaping at a concrete document preserves the name
field. -/
theorem claim_C6_shaping_witness :
    lookupV "name" (shapeDoc [("name", .vstr "A"), ("_id", .vstr "x1")]) =
      lookupV "name" [("name", .vstr "A"), ("_id", .vstr "x1")] :=
  (claim_C6_shaping ⟨fun _ => [], 0⟩ none 24
      [("name", .vstr "A"), ("_id", .vstr "x1")]).2.2.2.1
    "name" (by decide) (by decide)

/-- Claim C7: on a failed persistence layer every data endpoint converts
the storage error into an HTTP 500 response whose detail carries the
underlying message, and the store is not modified (no retries, no partial
handling). -/
theorem claim_C7_persistence_failures (msg : String) (jp ji : Value)
    (p : Product) (i : Inquiry) (c : Option String) (lim : Nat)
    (hp : validateProduct jp = .ok p) (hi : validateInquiry ji = .ok i) :
    create_product jp (.down msg) = (.httpErr 500 msg, .down msg) ∧
    list_products c lim (.down msg) = .httpErr 500 msg ∧
    seed_products (.down msg) = (.httpErr 500 msg, .down msg) ∧
    create_inquiry ji (.down msg) = (.httpErr 500 msg, .down msg) := by
  refine ⟨?_, ?_, rfl, ?_⟩
  · simp [create_product, hp, create_document]
  · cases c with
    | none => rfl
    | some cv => rfl
  · simp [create_inquiry, hi, create_document]

/-- Claim C7 witness: concrete valid bodies against a concrete failed
store. -/
theorem claim_C7_persistence_failures_witness :
    create_product (.vmap [("name", .vstr "V"), ("category", .vstr "C")])
        (.down "boom") = (.httpErr 500 "boom", .down "boom") ∧
    list_products none 24 (.down "boom") = .httpErr 500 "boom" ∧
    seed_products (.down "boom") = (.httpErr 500 "boom", .down "boom") ∧
    create_inquiry (.vmap [("name", .vstr "Jo"), ("company", .vstr "Acme"),
        ("email", .vstr "a@b.co"), ("message", .vstr "hi")])
        (.down "boom") = (.httpErr 500 "boom", .down "boom") :=
  claim_C7_persistence_failures "boom"
    (.vmap [("name", .vstr "V"), ("category", .vstr "C")])
    (.vmap [("name", .vstr "Jo"), ("company", .vstr "Acme"),
      ("email", .vstr "a@b.co"), ("message", .vstr "hi")])
    ⟨"V", "C", none, none, none, none, none, none, true⟩
    ⟨"Jo", "Acme", "a@b.co", none, "hi", none⟩
    none 24 rfl rfl

/-- Claim C8: omitted boolean fields receive their fixed defaults: a
Product validated without in_stock has in_stock = true, and a User
validated without is_active has is_active = true. -/
theorem claim_C8_bool_defaults (fs gs : List (String × Value)) :
    (getKey fs "in_stock" = none →
        ∀ p, validateProduct (.vmap fs) = .ok p → p.in_stock = true) ∧
    (getKey gs "is_active" = none →
        ∀ u, validateUser (.vmap gs) = .ok u → u.is_active = true) := by
  constructor
  · intro h p hp
    have hb := validateProduct_in_stock fs p hp
    unfold boolField at hb
    simp only [h, Except.ok.injEq] at hb
    exact hb.symm
  · intro h u hu
    have hb := validateUser_is_active gs u hu
    unfold boolField at hb
    simp only [h, Except.ok.injEq] at hb
    exact hb.symm

/-- Claim C8 witness: concrete bodies omitting the boolean fields. -/
theorem claim_C8_bool_defaults_witness :
    (⟨"V", "C", none, none, none, none, none, none, true⟩ : Product).in_stock = true ∧
    (⟨"Jo", "a@b.co", "Addr", none, true⟩ : User).is_active = true :=
  ⟨(claim_C8_bool_defaults [("name", .vstr "V"), ("category", .vstr "C")]
      [("name", .vstr "Jo"), ("email", .vstr "a@b.co"), ("address", .vstr "Addr")]).1
      rfl _ rfl,
   (claim_C8_bool_defaults [("name", .vstr "V"), ("category", .vstr "C")]
      [("name", .vstr "Jo"), ("email", .vstr "a@b.co"), ("address", .vstr "Addr")]).2
      rfl _ rfl⟩

/-- Claim C9 (amended): every shaped document carries an "id" key holding
the string rendering of its "_id" value (a string that is empty exactly
when the stored identifier is the empty string); when the stored document
lacks "_id" entirely the emitted id is the literal string "None" rather
than an absent or null field. -/
theorem claim_C9_id_rendering (d : Doc) :
    lookupV "id" (shapeDoc d) = some (.vstr (idAsString d)) ∧
    (lookupV "_id" d = none →
        lookupV "id" (shapeDoc d) = some (.vstr "None")) := by
  refine ⟨shapeDoc_id d, fun h => ?_⟩
  rw [shapeDoc_id d]
  unfold idAsString
  rw [h]
  rfl

/-- Claim C9 witness: a stored document without "_id" is shaped with the
literal id "None". -/
theorem claim_C9_id_rendering_witness :
    lookupV "id" (shapeDoc [("name", .vstr "X")]) = some (.vstr "None") :=
  (claim_C9_id_rendering [("name", .vstr "X")]).2 rfl

/-- Claim C9 counterexample: a stored document whose "_id" is the empty
string is listed with an "id" value that is the empty string, so the
emitted id is not always a non-empty string. -/
theorem claim_C9_id_rendering_counterexample :
    list_products none 24
      (.up ⟨fun n => if n == "product"
        then [[("name", .vstr "X"), ("_id", .vstr "")]] else [], 1⟩) =
      .okList 200 [[("name", .vstr "X"), ("id", .vstr "")]] ∧
    lookupV "id" [("name", .vstr "X"), ("id", .vstr "")] = some (.vstr "") :=
  ⟨rfl, rfl⟩

/-- Claim C10: when the connection handle is absent the diagnostic endpoint
reports database_url and database_name as null regardless of the
environment variables; the Set / Not Set environment reporting is produced
only on the connected branch. -/
theorem claim_C10_env_reporting (eu en : Option String)
    (r : Except String (List String)) :
    (test_database .absent eu en).2.database_url = none ∧
    (test_database .absent eu en).2.database_name = none ∧
    (test_database (.avail r) eu en).2.database_url =
      some (if pyTruthyStr eu then "✅ Set" else "❌ Not Set") ∧
    (test_database (.avail r) eu en).2.database_name =
      some (if pyTruthyStr en then "✅ Set" else "❌ Not Set") := by
  refine ⟨rfl, rfl, ?_, ?_⟩ <;> cases r <;> rfl

end OGX
